import Mathlib

/-!
Verification of the VoiceReel job-orchestration layer (`voicereel/`).

Each definition below is a shallow embedding of a function or handler of the
repository; the file/line references in the doc comments point at the
embedded source.  Timestamps (Python `time.time()` floats) are modelled as
rationals, per-IP tables (`defaultdict(deque)` / `defaultdict(list)`) as
functions `String → List ℚ` whose default value is `[]`.
-/

namespace VoiceReel

/-- Python `int()` applied to a rational: truncation toward zero. -/
def pyInt (q : ℚ) : ℤ := if 0 ≤ q then ⌊q⌋ else ⌈q⌉

/-! ### `security.py` — `RateLimiter` (lines 24-112) -/

/-- State of `security.RateLimiter`: configuration plus the per-IP request
timestamp deques and the time of the last periodic cleanup sweep. -/
structure RateLimiter where
  requestsPerMinute : Nat
  requestsPerHour : Nat
  cleanupInterval : ℚ
  requestsByIp : String → List ℚ
  lastCleanup : ℚ

/-- The dict returned by `RateLimiter.is_allowed` as second component:
either the rejection info (error code, `limit_type`, limit, current count,
`reset_time`) or the remaining-quota info of an allowed request. -/
inductive RateDecision where
  | rejected (error : String) (limitType : String) (limit : Nat) (current : Nat)
      (resetTime : ℤ)
  | allowedInfo (remainingMinute : ℤ) (remainingHour : ℤ)
  deriving DecidableEq

/-- `while requests and requests[0] <= cutoff: requests.popleft()` —
drop the longest front segment of timestamps that are at or before
`cutoff` (`security.py` lines 91-92 and 105-106). -/
def dropOld (cutoff : ℚ) (l : List ℚ) : List ℚ :=
  l.dropWhile fun t => decide (t ≤ cutoff)

/-- `RateLimiter._cleanup_old_entries` (`security.py` lines 99-112): every
IP's deque loses its timestamps at or before `now - 3600`; emptied IPs are
deleted from the dict, which is indistinguishable from mapping to `[]`
because absent keys read as empty deques. -/
def cleanupOldEntries (rl : RateLimiter) (now : ℚ) : RateLimiter :=
  { rl with requestsByIp := fun ip => dropOld (now - 3600) (rl.requestsByIp ip) }

/-- The periodic-cleanup prologue of `is_allowed` (`security.py` lines
53-56): run the sweep when more than `cleanup_interval` elapsed. -/
def afterCleanup (rl : RateLimiter) (now : ℚ) : RateLimiter :=
  if now - rl.lastCleanup > rl.cleanupInterval then
    { cleanupOldEntries rl now with lastCleanup := now }
  else rl

/-- `sum(1 for req_time in ip_requests if req_time > now - window)`
(`security.py` lines 65-66, with `window` = 60 or 3600). -/
def windowCount (window : ℚ) (now : ℚ) (l : List ℚ) : Nat :=
  l.countP fun t => decide (t > now - window)

/-- `RateLimiter.is_allowed` (`security.py` lines 41-97).  Returns the
mutated limiter state together with `(allowed, info)`. -/
def isAllowed (rl : RateLimiter) (clientIp : String) (now : ℚ) :
    RateLimiter × Bool × RateDecision :=
  let rl1 := afterCleanup rl now
  let ipRequests := rl1.requestsByIp clientIp
  let minuteCount := windowCount 60 now ipRequests
  let hourCount := windowCount 3600 now ipRequests
  if rl1.requestsPerMinute ≤ minuteCount then
    (rl1, false, .rejected "RATE_LIMIT_EXCEEDED" "per_minute" rl1.requestsPerMinute
      minuteCount (pyInt ((now - 60) + 60)))
  else if rl1.requestsPerHour ≤ hourCount then
    (rl1, false, .rejected "RATE_LIMIT_EXCEEDED" "per_hour" rl1.requestsPerHour
      hourCount (pyInt ((now - 3600) + 3600)))
  else
    ({ rl1 with requestsByIp := fun ip =>
        if ip = clientIp then dropOld (now - 3600) (ipRequests ++ [now])
        else rl1.requestsByIp ip },
      true,
      .allowedInfo ((rl1.requestsPerMinute : ℤ) - minuteCount - 1)
        ((rl1.requestsPerHour : ℤ) - hourCount - 1))

/-! ### `security.py` — `APIKeyValidator` (lines 372-461) -/

/-- State of `security.APIKeyValidator`: the configured key and HMAC secret
plus the per-IP failed-attempt timestamp lists. -/
structure APIKeyValidator where
  apiKey : Option String
  hmacSecret : Option String
  failedAttempts : String → List ℚ
  lockoutDuration : ℚ
  maxAttempts : Nat

/-- The error dicts produced by `APIKeyValidator.validate_request`. -/
inductive AuthError where
  | tooManyFailedAttempts (retryAfter : ℚ)
  | invalidApiKey
  | missingSignature
  | invalidSignature
  deriving DecidableEq

/-- The `"error"` entry of each of the dicts of `validate_request`. -/
def AuthError.code : AuthError → String
  | .tooManyFailedAttempts _ => "TOO_MANY_FAILED_ATTEMPTS"
  | .invalidApiKey => "INVALID_API_KEY"
  | .missingSignature => "MISSING_SIGNATURE"
  | .invalidSignature => "INVALID_SIGNATURE"

/-- `[t for t in failed_attempts if now - t < self.lockout_duration]`
(`security.py` lines 447 and 458-461). -/
def recentAttempts (v : APIKeyValidator) (ip : String) (now : ℚ) : List ℚ :=
  (v.failedAttempts ip).filter fun t => decide (now - t < v.lockoutDuration)

/-- `APIKeyValidator._is_ip_locked_out` (`security.py` lines 441-450):
prunes the IP's old attempts in place, then reports whether at least
`max_attempts` recent ones remain. -/
def isIpLockedOut (v : APIKeyValidator) (ip : String) (now : ℚ) :
    APIKeyValidator × Bool :=
  let recent := recentAttempts v ip now
  ({ v with failedAttempts := fun j => if j = ip then recent else v.failedAttempts j },
    v.maxAttempts ≤ recent.length)

/-- `APIKeyValidator._record_failed_attempt` (`security.py` lines 452-461):
append `now`, then keep only attempts within the lockout window. -/
def recordFailedAttempt (v : APIKeyValidator) (ip : String) (now : ℚ) :
    APIKeyValidator :=
  let kept := ((v.failedAttempts ip) ++ [now]).filter fun t =>
    decide (now - t < v.lockoutDuration)
  { v with failedAttempts := fun j => if j = ip then kept else v.failedAttempts j }

/-- `APIKeyValidator.validate_request` (`security.py` lines 384-439).
`hmacHex secret body` stands for `hmac.new(secret, body, sha256).hexdigest()`
— the hash itself is an external primitive, passed in as a parameter.
`providedKey` / `providedSig` are the `X-VR-APIKEY` / `X-VR-SIGN` headers
(`none` when absent). -/
def validateRequest (hmacHex : String → String → String) (v : APIKeyValidator)
    (providedKey providedSig : Option String) (body : String)
    (clientIp : String) (now : ℚ) :
    APIKeyValidator × Bool × Option AuthError :=
  let lockRes := isIpLockedOut v clientIp now
  let v1 := lockRes.1
  if lockRes.2 then
    (v1, false, some (.tooManyFailedAttempts v.lockoutDuration))
  else
    match v1.apiKey with
    | none => (v1, true, none)
    | some key =>
      if providedKey ≠ some key then
        (recordFailedAttempt v1 clientIp now, false, some .invalidApiKey)
      else
        match v1.hmacSecret with
        | none => (v1, true, none)
        | some secret =>
          match providedSig with
          | none => (recordFailedAttempt v1 clientIp now, false, some .missingSignature)
          | some sig =>
            if sig ≠ hmacHex secret body then
              (recordFailedAttempt v1 clientIp now, false, some .invalidSignature)
            else (v1, true, none)

/-! ### `security.py` — `InputValidator` (lines 201-319)

The validators run Python regexes; they are embedded here as character-level
scanners over the (ASCII) input.  `re.IGNORECASE` is rendered by lowercasing
the text first. -/

/-- Python `\s` (ASCII range), also the set stripped by `str.strip()`. -/
def pySpace (c : Char) : Bool :=
  c = ' ' || c = '\t' || c = '\n' || c = '\x0d' || c = '\x0b' || c = '\x0c'

/-- Python `str.strip()`: remove leading and trailing whitespace. -/
def pyStrip (s : String) : String :=
  String.mk (((s.toList.dropWhile pySpace).reverse.dropWhile pySpace).reverse)

/-- Python `\w` (ASCII range). -/
def wordChar (c : Char) : Bool :=
  ('a' ≤ c && c ≤ 'z') || ('A' ≤ c && c ≤ 'Z') || ('0' ≤ c && c ≤ '9') || c = '_'

/-- The `.*?</script>` tail of XSS pattern `<script[^>]*>.*?</script>`:
scan forward for a literal `</script>`, failing at a newline (`.` does not
match `\n`). -/
def closeScriptAhead : List Char → Bool
  | [] => false
  | c :: rest =>
    if List.isPrefixOf "</script>".toList (c :: rest) then true
    else if c = '\n' then false
    else closeScriptAhead rest

/-- The `[^>]*>` part after `<script`: skip non-`>` characters, consume the
first `>`, then look for the closing tag. -/
def afterScriptOpen : List Char → Bool
  | [] => false
  | c :: rest => if c = '>' then closeScriptAhead rest else afterScriptOpen rest

/-- A match of `<script[^>]*>.*?</script>` starting at the head. -/
def scriptTagAt (l : List Char) : Bool :=
  if List.isPrefixOf "<script".toList l then afterScriptOpen (l.drop 7) else false

/-- A match of `on\w+\s*=` starting at the head. -/
def onAttrAt : List Char → Bool
  | 'o' :: 'n' :: c :: rest =>
    if wordChar c then
      match (rest.dropWhile wordChar).dropWhile pySpace with
      | '=' :: _ => true
      | _ => false
    else false
  | _ => false

/-- A match of `<tag[^>]*>` starting at the head (for `<iframe`, `<object`,
`<embed`): the literal opener followed by a later `>`. -/
def openTagAt (tag : List Char) (l : List Char) : Bool :=
  if List.isPrefixOf tag l then (l.drop tag.length).contains '>' else false

/-- `re.search`: try a match at every suffix. -/
def searchSuffixes (p : List Char → Bool) : List Char → Bool
  | [] => p []
  | c :: rest => p (c :: rest) || searchSuffixes p rest

/-- `self.xss_regex.search(text)` (`security.py` lines 214-225): the six
`XSS_PATTERNS` alternated, case-insensitively. -/
def xssSearch (s : String) : Bool :=
  let l := s.toList.map Char.toLower
  searchSuffixes scriptTagAt l ||
  searchSuffixes (fun t => List.isPrefixOf "javascript:".toList t) l ||
  searchSuffixes onAttrAt l ||
  searchSuffixes (openTagAt "<iframe".toList) l ||
  searchSuffixes (openTagAt "<object".toList) l ||
  searchSuffixes (openTagAt "<embed".toList) l

/-- `re.match(r"^[a-zA-Z0-9\s\-_\.\'\"]+$", name)` succeeds iff the string
is non-empty and every character lies in the class (the class contains
`\s`, so the `$`-before-final-newline subtlety changes nothing). -/
def nameClassChar (c : Char) : Bool :=
  ('a' ≤ c && c ≤ 'z') || ('A' ≤ c && c ≤ 'Z') || ('0' ≤ c && c ≤ '9') ||
  pySpace c || c = '-' || c = '_' || c = '.' || c = '\'' || c = '"'

/-- `InputValidator.validate_speaker_name` (`security.py` lines 227-243). -/
def validateSpeakerName (name : String) : Bool × String :=
  if name = "" then (false, "Speaker name is required")
  else
    let n := pyStrip name
    if n.length < 1 || n.length > 100 then
      (false, "Speaker name must be 1-100 characters")
    else if xssSearch n then (false, "Speaker name contains invalid characters")
    else if !(n.length > 0 && n.toList.all nameClassChar) then
      (false, "Speaker name contains invalid characters")
    else (true, "")

/-- The `allowed_langs` set of `validate_language_code`. -/
def allowedLangs : List String :=
  ["en", "ko", "ja", "zh", "de", "fr", "es", "it", "ru", "pt"]

/-- `InputValidator.validate_language_code` (`security.py` lines 245-254);
the error message interpolates the sorted allow-list. -/
def validateLanguageCode (lang : String) : Bool × String :=
  if lang = "" then (false, "Language code is required")
  else if !(allowedLangs.contains lang) then
    (false, "Unsupported language. Allowed: de, en, es, fr, it, ja, ko, pt, ru, zh")
  else (true, "")

/-- `InputValidator.validate_script_text` (`security.py` lines 256-272). -/
def validateScriptText (text : String) : Bool × String :=
  if text = "" then (false, "Script text is required")
  else
    let t := pyStrip text
    if t.length < 1 then (false, "Script text cannot be empty")
    else if t.length > 10000 then
      (false, "Script text too long (max 10,000 characters)")
    else if xssSearch t then
      (false, "Script text contains potentially dangerous content")
    else (true, "")

/-- One element of a synthesis script: `segment.get("speaker_id")` (`none`
when the key is absent) and `segment.get("text", "")`.  String-valued
fields; a missing or empty `speaker_id` is falsy in the `if not speaker_id`
test. -/
structure Segment where
  speakerId : Option String
  text : Option String
  deriving DecidableEq

/-- Python truthiness of the `speaker_id` value: absent or empty. -/
def falsyId : Option String → Bool
  | none => true
  | some s => s = ""

/-- The `for i, segment in enumerate(script)` loop of
`validate_synthesis_script` (`security.py` lines 282-295). -/
def validateSegments (i : Nat) : List Segment → Bool × String
  | [] => (true, "")
  | seg :: rest =>
    if falsyId seg.speakerId then
      (false, "Segment " ++ toString i ++ " missing speaker_id")
    else
      let r := validateScriptText (seg.text.getD "")
      if !r.1 then (false, "Segment " ++ toString i ++ ": " ++ r.2)
      else validateSegments (i + 1) rest

/-- `InputValidator.validate_synthesis_script` (`security.py` lines
274-297). -/
def validateSynthesisScript (script : List Segment) : Bool × String :=
  if script.isEmpty then (false, "Script must be a non-empty list")
  else if script.length > 1000 then (false, "Script too long (max 1,000 segments)")
  else validateSegments 0 script

/-! ### `error_responses.py` and the `/v1/speakers` JSON handlers -/

/-- `ErrorCode.INSUFFICIENT_REF` (`error_responses.py` line 28): the wire
value of the enum member is `"INSUFFICIENT_REFERENCE_AUDIO"`. -/
def errorCodeInsufficientRef : String := "INSUFFICIENT_REFERENCE_AUDIO"

/-- Responses of the JSON-mode `/v1/speakers` handlers, projected to HTTP
status and the machine-readable `"error"` code (or acceptance). -/
inductive SpeakersResponse where
  | err (status : Nat) (code : String)
  | accepted (status : Nat)
  deriving DecidableEq

/-- The JSON-payload branch of `Handler.do_POST` for `/v1/speakers` in
`server.py` (lines 294-372): validate name, language and script text in
that order (each failure → 400 `INVALID_INPUT`), then reject
`duration < 30` with `self._error(422, "INSUFFICIENT_REF")`, else insert
speaker and pending job and answer 202. -/
def vrJsonSpeakersResponse (name lang script : String) (duration : ℚ) :
    SpeakersResponse :=
  if !(validateSpeakerName name).1 then .err 400 "INVALID_INPUT"
  else if !(validateLanguageCode lang).1 then .err 400 "INVALID_INPUT"
  else if !(validateScriptText script).1 then .err 400 "INVALID_INPUT"
  else if duration < 30 then .err 422 "INSUFFICIENT_REF"
  else .accepted 202

/-- The same branch of `server_postgres.py` (lines 271-341): identical
validation order, identical `_error(422, "INSUFFICIENT_REF", ...)`. -/
def pgJsonSpeakersResponse (name lang script : String) (duration : ℚ) :
    SpeakersResponse :=
  if !(validateSpeakerName name).1 then .err 400 "INVALID_INPUT"
  else if !(validateLanguageCode lang).1 then .err 400 "INVALID_INPUT"
  else if !(validateScriptText script).1 then .err 400 "INVALID_INPUT"
  else if duration < 30 then .err 422 "INSUFFICIENT_REF"
  else .accepted 202

/-! ### Speaker listings (`db_postgres.py` lines 194-205, `server.py`
lines 195-214) -/

/-- A row of the `speakers` table; `createdAt` is the insertion timestamp
(`created_at TIMESTAMP DEFAULT CURRENT_TIMESTAMP` in PostgreSQL; implicit
in the SQLite schema, where `rowid` order is insertion order). -/
structure SpeakerRow where
  id : Nat
  name : String
  lang : String
  createdAt : ℚ
  deriving DecidableEq

/-- `ORDER BY created_at DESC`: row `a` may precede row `b`. -/
def newerEq (a b : SpeakerRow) : Prop := b.createdAt ≤ a.createdAt

instance : DecidableRel newerEq := fun a b =>
  inferInstanceAs (Decidable (b.createdAt ≤ a.createdAt))

instance : IsTotal SpeakerRow newerEq :=
  ⟨fun a b => le_total b.createdAt a.createdAt⟩

instance : IsTrans SpeakerRow newerEq :=
  ⟨fun _ _ _ h1 h2 => le_trans h2 h1⟩

/-- `PostgreSQLDatabase.list_speakers` (`db_postgres.py` lines 194-205):
`SELECT * FROM speakers ORDER BY created_at DESC LIMIT %s OFFSET %s` over
the table (held in insertion order). -/
def pgListSpeakers (table : List SpeakerRow) (limit offset : Nat) :
    List SpeakerRow :=
  ((table.insertionSort newerEq).drop offset).take limit

/-- The `/v1/speakers` listing of `server.py` (lines 195-214):
`SELECT id, name, lang FROM speakers LIMIT ? OFFSET ?` — no `ORDER BY`;
SQLite scans the table in `rowid` (insertion) order. -/
def sqliteListSpeakers (table : List SpeakerRow) (pageSize offset : Nat) :
    List SpeakerRow :=
  (table.drop offset).take pageSize

/-! ### `db_postgres.py` — the `jobs` table and `update_job`
(lines 94-112, 220-292) -/

/-- A row of the PostgreSQL `jobs` table.  `metadata` models the `JSONB`
column as a key/value association (lookup-relevant only). -/
structure JobRow where
  typ : String
  status : String
  audioUrl : Option String
  captionPath : Option String
  captionFormat : Option String
  metadata : List (String × String)
  createdAt : ℚ
  updatedAt : ℚ
  completedAt : Option ℚ
  deriving DecidableEq

/-- JSONB `metadata || new`: keys of both sides, the right side winning. -/
def mergeMeta (old new : List (String × String)) : List (String × String) :=
  old.filter (fun p => !(new.any fun q => q.1 = p.1)) ++ new

/-- One element of the `updates` list assembled by
`PostgreSQLDatabase.update_job` (`db_postgres.py` lines 258-281). -/
inductive ColumnUpdate where
  | setStatus (s : String)
  | stampCompletedAt
  | setAudioUrl (u : String)
  | setCaptionPath (p : String)
  | setCaptionFormat (f : String)
  | mergeMetadata (m : List (String × String))
  deriving DecidableEq

/-- The `updates`/`params` assembly of `update_job`: each provided argument
appends its `SET` fragment; a provided status of `"succeeded"` additionally
appends `completed_at = NOW()`. -/
def buildUpdates (status? audioUrl? captionPath? captionFormat? : Option String)
    (metadata? : Option (List (String × String))) : List ColumnUpdate :=
  (match status? with
   | some s => [.setStatus s] ++ (if s = "succeeded" then [.stampCompletedAt] else [])
   | none => []) ++
  (match audioUrl? with | some u => [.setAudioUrl u] | none => []) ++
  (match captionPath? with | some p => [.setCaptionPath p] | none => []) ++
  (match captionFormat? with | some f => [.setCaptionFormat f] | none => []) ++
  (match metadata? with | some m => [.mergeMetadata m] | none => [])

/-- Effect of one `SET` fragment on the row (`NOW()` = `now`). -/
def applyUpdate (now : ℚ) (row : JobRow) : ColumnUpdate → JobRow
  | .setStatus s => { row with status := s }
  | .stampCompletedAt => { row with completedAt := some now }
  | .setAudioUrl u => { row with audioUrl := some u }
  | .setCaptionPath p => { row with captionPath := some p }
  | .setCaptionFormat f => { row with captionFormat := some f }
  | .mergeMetadata m => { row with metadata := mergeMeta row.metadata m }

/-- `PostgreSQLDatabase.update_job` (`db_postgres.py` lines 248-292) on one
row: `if not updates: return` leaves the row untouched; otherwise the
single `UPDATE` applies every fragment and the `update_jobs_updated_at`
trigger (lines 145-166) stamps `updated_at = NOW()`. -/
def updateJob (row : JobRow) (status? audioUrl? captionPath? captionFormat? : Option String)
    (metadata? : Option (List (String × String))) (now : ℚ) : JobRow :=
  let updates := buildUpdates status? audioUrl? captionPath? captionFormat? metadata?
  if updates.isEmpty then row
  else { updates.foldl (applyUpdate now) row with updatedAt := now }

/-- `PostgreSQLDatabase.create_job` (`db_postgres.py` lines 220-236):
`INSERT INTO jobs (type, status, metadata)` with default status
`"pending"`; reference columns start as SQL `NULL`, timestamps default to
`CURRENT_TIMESTAMP`. -/
def pgCreateJob (typ : String) (meta : List (String × String)) (now : ℚ) : JobRow :=
  ⟨typ, "pending", none, none, none, meta, now, now, none⟩

/-! ### `server.py` — the legacy SQLite job rows (lines 90-99, 329-486) -/

/-- A row of the SQLite `jobs` table of `server.py` (lines 90-99): no
timestamp or metadata columns. -/
structure SqliteJobRow where
  id : String
  typ : String
  status : String
  audioUrl : Option String
  captionPath : Option String
  captionFormat : Option String
  deriving DecidableEq

/-- The `/v1/speakers` insert of `server.py` (lines 336-346): a pending
`register_speaker` job with `NULL` reference columns. -/
def legacyRegisterInsert (jobId : String) : SqliteJobRow :=
  ⟨jobId, "register_speaker", "pending", none, none, none⟩

/-- The `/v1/synthesize` insert of `server.py` (lines 425-435): the handler
writes the fake audio and caption files synchronously and stores BOTH
output paths in the row while its status is still `"pending"`. -/
def legacySynthesizeInsert (jobId audioPath captionPath captionFormat : String) :
    SqliteJobRow :=
  ⟨jobId, "synthesize", "pending", some audioPath, some captionPath, some captionFormat⟩

/-- `VoiceReelServer._worker_loop` (`server.py` lines 468-486): for every
dequeued item it runs `UPDATE jobs SET status='succeeded' WHERE id=?` —
one direct jump to the terminal state. -/
def legacyWorkerUpdate (r : SqliteJobRow) : SqliteJobRow :=
  { r with status := "succeeded" }

/-- Position of a status in the lifecycle order
`pending → processing → {succeeded, failed}`. -/
def statusRank (s : String) : Nat :=
  if s = "pending" then 0 else if s = "processing" then 1 else 2

/-! ### Job status updates performed by the worker loop and the tasks

One constructor per `UPDATE` site, carrying the status the job has when
the code path reaches it: the in-memory worker loops dequeue only
freshly-enqueued pending jobs (`server_postgres.py` lines 410-440), a task
body starts on a pending job or on a failed one re-queued by
`self.retry(...)` (`tasks.py` lines 107-121 / `tasks_postgres.py`), and the
terminal updates follow the task's own `processing` update. -/
inductive JobStep : JobRow → JobRow → Prop where
  /-- `_worker_loop` `register_speaker` branch (`server_postgres.py`
  line 424): `update_job(job_id, status="succeeded")`. -/
  | workerRegister (r : JobRow) (now : ℚ) (h : r.status = "pending") :
      JobStep r (updateJob r (some "succeeded") none none none none now)
  /-- `_worker_loop` `synthesize` branch (`server_postgres.py` lines
  431-437): status `succeeded` and both references in one update. -/
  | workerSynthesize (r : JobRow) (a c f : String) (now : ℚ)
      (h : r.status = "pending") :
      JobStep r (updateJob r (some "succeeded") (some a) (some c) (some f) none now)
  /-- Task prologue (`tasks.py` line 57 / `tasks_postgres.py` line 55):
  `status="processing"`, on first execution or on a retry after failure. -/
  | taskStart (r : JobRow) (now : ℚ)
      (h : r.status = "pending" ∨ r.status = "failed") :
      JobStep r (updateJob r (some "processing") none none none none now)
  /-- `register_speaker` success (`tasks.py` line 94 /
  `tasks_postgres.py` lines 88-92). -/
  | taskSucceedRegister (r : JobRow) (m : List (String × String)) (now : ℚ)
      (h : r.status = "processing") :
      JobStep r (updateJob r (some "succeeded") none none none (some m) now)
  /-- `synthesize` success (`tasks.py` lines 252-257 /
  `tasks_postgres.py` lines 262-275): status, references and format in one
  update. -/
  | taskSucceedSynthesize (r : JobRow) (a c f : String)
      (m : List (String × String)) (now : ℚ) (h : r.status = "processing") :
      JobStep r (updateJob r (some "succeeded") (some a) (some c) (some f) (some m) now)
  /-- Task failure handlers (`tasks.py` lines 277-288 /
  `tasks_postgres.py` lines 310-317): `status="failed"` with the error in
  metadata.  They run for ANY exception escaping the `try` body — before
  the success update (job still `processing`) or after it has committed
  (job already `succeeded`): `tasks.py`'s `synthesize` deterministically
  raises `NameError` at its `return` (line 270 references the undefined
  `audio_path`/`caption_path`) after the line-264 success commit, and in
  `tasks_postgres.py` a soft timeout or a `record_usage` error can land
  after the success update (lines 263-275), each `update_job` having
  committed on its own pooled connection. -/
  | taskFail (r : JobRow) (m : List (String × String)) (now : ℚ)
      (h : r.status = "processing" ∨ r.status = "succeeded") :
      JobStep r (updateJob r (some "failed") none none none (some m) now)

/-- Job rows reachable in the PostgreSQL backend: created by the handlers
via `create_job` and then stepped by the worker loop / tasks. -/
inductive JobReachable : JobRow → Prop where
  | created (typ : String) (meta : List (String × String)) (now : ℚ) :
      JobReachable (pgCreateJob typ meta now)
  | step (r r' : JobRow) : JobReachable r → JobStep r r' → JobReachable r'

/-! ### The `do_POST` security gate (`server.py` lines 245-253,
`server_postgres.py` lines 238-247, `security.py` lines 480-528) -/

/-- The error dict handed back by `SecurityMiddleware.process_request`. -/
inductive SecurityError where
  | rateLimit (info : RateDecision)
  | auth (e : AuthError)
  deriving DecidableEq

/-- Shared security-middleware state: the rate limiter and the key
validator. -/
structure MiddlewareState where
  rateLimiter : RateLimiter
  apiKeyValidator : APIKeyValidator

/-- `SecurityMiddleware.process_request` (`security.py` lines 495-528) for
a `POST` request (`handle_preflight` returns `False` for any non-`OPTIONS`
command, so the preflight branch cannot fire): rate limiting, then API-key
and signature validation. -/
def processRequest (hmacHex : String → String → String) (mw : MiddlewareState)
    (clientIp : String) (providedKey providedSig : Option String)
    (body : String) (now : ℚ) :
    MiddlewareState × Bool × Option SecurityError :=
  let rlRes := isAllowed mw.rateLimiter clientIp now
  if !rlRes.2.1 then
    (⟨rlRes.1, mw.apiKeyValidator⟩, false, some (.rateLimit rlRes.2.2))
  else
    let authRes := validateRequest hmacHex mw.apiKeyValidator providedKey
      providedSig body clientIp now
    if !authRes.2.1 then
      (⟨rlRes.1, authRes.1⟩, false, authRes.2.2.map .auth)
    else (⟨rlRes.1, authRes.1⟩, true, none)

/-- Outcome of the opening phase of `do_POST`, before any routing. -/
inductive PostGate where
  | earlyError (status : Nat) (code : String)
  | securityReject (status : Nat)
  | corsHandled
  | proceed
  deriving DecidableEq

/-- `_check_security`'s status mapping (`server.py` lines 124-133): 429
for `RATE_LIMIT_EXCEEDED`, 401 otherwise. -/
def securityStatus : SecurityError → Nat
  | .rateLimit (.rejected err _ _ _ _) => if err = "RATE_LIMIT_EXCEEDED" then 429 else 401
  | .rateLimit (.allowedInfo _ _) => 401
  | .auth _ => 401

/-- The opening of `Handler.do_POST` in `server.py` (lines 245-253): a
`Content-Length` above 30 MiB is answered with `_error(413,
"PAYLOAD_TOO_LARGE")` and the handler returns before
`_check_security(raw)` ever runs; otherwise the middleware processes the
request. -/
def vrDoPostGate (hmacHex : String → String → String) (mw : MiddlewareState)
    (contentLength : Nat) (clientIp : String)
    (providedKey providedSig : Option String) (body : String) (now : ℚ) :
    MiddlewareState × PostGate :=
  if contentLength > 30 * 1024 * 1024 then (mw, .earlyError 413 "PAYLOAD_TOO_LARGE")
  else
    match processRequest hmacHex mw clientIp providedKey providedSig body now with
    | (mw', true, _) => (mw', .proceed)
    | (mw', false, some e) => (mw', .securityReject (securityStatus e))
    | (mw', false, none) => (mw', .corsHandled)

/-- The identical opening of `Handler.do_POST` in `server_postgres.py`
(lines 238-247). -/
def pgDoPostGate (hmacHex : String → String → String) (mw : MiddlewareState)
    (contentLength : Nat) (clientIp : String)
    (providedKey providedSig : Option String) (body : String) (now : ℚ) :
    MiddlewareState × PostGate :=
  if contentLength > 30 * 1024 * 1024 then (mw, .earlyError 413 "PAYLOAD_TOO_LARGE")
  else
    match processRequest hmacHex mw clientIp providedKey providedSig body now with
    | (mw', true, _) => (mw', .proceed)
    | (mw', false, some e) => (mw', .securityReject (securityStatus e))
    | (mw', false, none) => (mw', .corsHandled)

/-! ### Concrete states used to instantiate the theorems -/

/-- A limiter configured for 5 requests/minute and 2 requests/hour, whose
first IP has five allowed requests on record inside the trailing minute
and whose second IP has two old requests inside the trailing hour only. -/
def c3State : RateLimiter :=
  ⟨5, 2, 300,
    (fun ip =>
      if ip = "10.0.0.1" then [9990, 9990, 9990, 9990, 9990]
      else if ip = "10.0.0.2" then [9000, 9000] else []),
    10000⟩

/-- A limiter with one request on record for IP `"a"` inside the minute
window, configured for 1 request/minute. -/
def c3WitnessState : RateLimiter :=
  ⟨1, 1000, 300, (fun ip => if ip = "a" then [95] else []), 100⟩

/-- A key validator whose IP `"10.0.0.9"` has five recent failed attempts
on record (the default `max_attempts`). -/
def c4State : APIKeyValidator :=
  ⟨some "secret-key", none,
    (fun ip => if ip = "10.0.0.9" then [95, 96, 97, 98, 99] else []), 300, 5⟩

/-- A limiter with a sorted two-entry history for IP `"a"`. -/
def c9State : RateLimiter :=
  ⟨60, 1000, 300, (fun ip => if ip = "a" then [40, 50] else []), 100⟩

/-- A fresh middleware state: empty limiter history, no API key. -/
def c10State : MiddlewareState :=
  ⟨⟨60, 1000, 300, (fun _ => []), 0⟩, ⟨none, none, (fun _ => []), 300, 5⟩⟩

/-- A synthesis job as created by `create_job`. -/
def demoCreated : JobRow := pgCreateJob "synthesize" [] 0

/-- `demoCreated` after the task prologue's `status="processing"`. -/
def demoProcessing : JobRow :=
  updateJob demoCreated (some "processing") none none none none 1

/-- `demoProcessing` after the synthesize task's success update: status
`"succeeded"` with both references attached. -/
def demoSucceeded : JobRow :=
  updateJob demoProcessing (some "succeeded") (some "s3://b/a.wav")
    (some "s3://b/c.json") (some "json") (some []) 2

/-- `demoSucceeded` after the failure handler fires on the post-commit
exception (the deterministic `NameError` of `tasks.py` `synthesize`):
status `"failed"`, references untouched. -/
def demoFailed : JobRow :=
  updateJob demoSucceeded (some "failed") none none none
    (some [("error", "NameError")]) 3

/-! Helper lemmas about the limiter. -/

theorem countP_dropOld (cutoff : ℚ) (p : ℚ → Bool) (l : List ℚ)
    (hp : ∀ t, t ≤ cutoff → p t = false) :
    (dropOld cutoff l).countP p = l.countP p := by
  induction l with
  | nil => rfl
  | cons x xs ih =>
    rw [dropOld, List.dropWhile_cons]
    by_cases hx : x ≤ cutoff
    · rw [if_pos (decide_eq_true hx)]
      rw [show (xs.dropWhile fun t => decide (t ≤ cutoff)) = dropOld cutoff xs from rfl,
        ih, List.countP_cons, hp x hx]
      simp
    · rw [if_neg (by simp [hx])]

theorem afterCleanup_rpm (rl : RateLimiter) (now : ℚ) :
    (afterCleanup rl now).requestsPerMinute = rl.requestsPerMinute := by
  unfold afterCleanup cleanupOldEntries
  split <;> rfl

theorem afterCleanup_rph (rl : RateLimiter) (now : ℚ) :
    (afterCleanup rl now).requestsPerHour = rl.requestsPerHour := by
  unfold afterCleanup cleanupOldEntries
  split <;> rfl

theorem windowCount_afterCleanup (rl : RateLimiter) (ip : String) (now w : ℚ)
    (hw : w ≤ 3600) :
    windowCount w now ((afterCleanup rl now).requestsByIp ip) =
      windowCount w now (rl.requestsByIp ip) := by
  unfold afterCleanup cleanupOldEntries
  split
  · exact countP_dropOld _ _ _ fun t ht => by
      have h1 : ¬ (t > now - w) := by linarith
      simpa using h1
  · rfl

theorem dropOld_sublist (cutoff : ℚ) (l : List ℚ) : (dropOld cutoff l).Sublist l := by
  induction l with
  | nil => exact List.Sublist.refl _
  | cons x xs ih =>
    rw [dropOld, List.dropWhile_cons]
    by_cases hx : x ≤ cutoff
    · rw [if_pos (decide_eq_true hx)]
      exact List.Sublist.cons _ ih
    · rw [if_neg (by simp [hx])]

theorem mem_dropOld_gt (cutoff : ℚ) (l : List ℚ)
    (hs : List.Sorted (· ≤ ·) l) :
    ∀ x ∈ dropOld cutoff l, cutoff < x := by
  induction l with
  | nil => intro x hx; simp [dropOld] at hx
  | cons a as ih =>
    intro x hx
    rw [dropOld, List.dropWhile_cons] at hx
    by_cases ha : a ≤ cutoff
    · rw [if_pos (decide_eq_true ha)] at hx
      exact ih hs.of_cons x hx
    · rw [if_neg (by simp [ha])] at hx
      have hca : cutoff < a := not_le.mp ha
      rcases List.mem_cons.mp hx with rfl | hxs
      · exact hca
      · exact lt_of_lt_of_le hca ((List.sorted_cons.mp hs).1 x hxs)

theorem afterCleanup_sublist (rl : RateLimiter) (now : ℚ) (j : String) :
    ((afterCleanup rl now).requestsByIp j).Sublist (rl.requestsByIp j) := by
  unfold afterCleanup cleanupOldEntries
  split
  · exact dropOld_sublist _ _
  · exact List.Sublist.refl _

/-- The two outcomes of `is_allowed`: a rejection leaves the state at the
post-cleanup limiter, an acceptance additionally appends `now` to the
calling IP's deque and trims its stale front. -/
theorem isAllowed_cases (rl : RateLimiter) (ip : String) (now : ℚ) :
    ((isAllowed rl ip now).2.1 = false ∧
      (isAllowed rl ip now).1 = afterCleanup rl now) ∨
    ((isAllowed rl ip now).2.1 = true ∧
      (isAllowed rl ip now).1.requestsByIp = fun j =>
        if j = ip then
          dropOld (now - 3600) ((afterCleanup rl now).requestsByIp ip ++ [now])
        else (afterCleanup rl now).requestsByIp j) := by
  simp only [isAllowed]
  split_ifs <;> simp

/-- C3 (counterexample): in a limiter configured with N = 5 requests per
minute (and 2 per hour), IP `10.0.0.1` has five allowed requests in the
trailing 60 s and its next call is rejected `per_minute` — but the distinct
IP `10.0.0.2`, with zero requests in the trailing minute, is rejected as
well (`per_hour`), so the claim's "a distinct IP that has made fewer than
N requests in that window is still allowed" is false. -/
theorem c3_counterexample :
    c3State.requestsPerMinute = 5 ∧
    windowCount 60 10000 (c3State.requestsByIp "10.0.0.1") = 5 ∧
    (isAllowed c3State "10.0.0.1" 10000).2 =
      (false, .rejected "RATE_LIMIT_EXCEEDED" "per_minute" 5 5 (pyInt 10000)) ∧
    windowCount 60 10000 (c3State.requestsByIp "10.0.0.2") = 0 ∧
    (isAllowed c3State "10.0.0.2" 10000).2.1 = false := by
  refine ⟨rfl, ?_, ?_, ?_, ?_⟩ <;>
    · norm_num [isAllowed, c3State, afterCleanup, cleanupOldEntries, windowCount,
        dropOld, pyInt, List.countP_cons]
      try decide

/-- C3 (amended): with N requests from `ipA` on record in the trailing
60 s, the next `is_allowed` call for `ipA` is rejected with
`RATE_LIMIT_EXCEEDED` / `per_minute` and reset time `int(now)`, while a
distinct IP below BOTH thresholds (minute and hour) is still allowed. -/
theorem c3_rate_limit (rl : RateLimiter) (ipA ipB : String) (now : ℚ)
    (hA : rl.requestsPerMinute ≤ windowCount 60 now (rl.requestsByIp ipA))
    (hBm : windowCount 60 now (rl.requestsByIp ipB) < rl.requestsPerMinute)
    (hBh : windowCount 3600 now (rl.requestsByIp ipB) < rl.requestsPerHour) :
    (isAllowed rl ipA now).2 =
      (false, .rejected "RATE_LIMIT_EXCEEDED" "per_minute" rl.requestsPerMinute
        (windowCount 60 now (rl.requestsByIp ipA)) (pyInt now)) ∧
    (isAllowed rl ipB now).2.1 = true := by
  have e60 : (60 : ℚ) ≤ 3600 := by norm_num
  have e3600 : (3600 : ℚ) ≤ 3600 := le_refl _
  constructor
  · simp only [isAllowed]
    rw [afterCleanup_rpm, windowCount_afterCleanup rl ipA now 60 e60, if_pos hA]
    have hnow : (now - 60) + 60 = now := by ring
    rw [hnow]
  · simp only [isAllowed]
    rw [afterCleanup_rpm, windowCount_afterCleanup rl ipB now 60 e60,
      if_neg (not_le.mpr hBm), afterCleanup_rph,
      windowCount_afterCleanup rl ipB now 3600 e3600, if_neg (not_le.mpr hBh)]

/-- C3 witness: the amended theorem instantiated at a limiter with 1
request/minute, one recorded request for `"a"` and none for `"b"`. -/
theorem c3_rate_limit_witness :
    (isAllowed c3WitnessState "a" 100).2 =
      (false, .rejected "RATE_LIMIT_EXCEEDED" "per_minute" 1 1 (pyInt 100)) ∧
    (isAllowed c3WitnessState "b" 100).2.1 = true := by
  have h := c3_rate_limit c3WitnessState "a" "b" 100
    (by norm_num [windowCount, c3WitnessState, List.countP_cons])
    (by norm_num [windowCount, c3WitnessState, List.countP_cons]; try decide)
    (by norm_num [windowCount, c3WitnessState, List.countP_cons]; try decide)
  norm_num [windowCount, c3WitnessState, List.countP_cons] at h
  exact h

/-- C9: a rejected `is_allowed` call leaves every IP's stored history a
sublist of what was already there (in particular the request's timestamp is
not recorded and no quota is consumed), and after an allowed call the
calling IP's stored history holds only timestamps in the trailing hour
`(now - 3600, now]`.  The hypotheses say the stored history is sorted and
in the past, which holds of histories built from a monotone clock. -/
theorem c9_history_recording (rl : RateLimiter) (ip : String) (now : ℚ)
    (hsorted : List.Sorted (· ≤ ·) (rl.requestsByIp ip))
    (hle : ∀ t ∈ rl.requestsByIp ip, t ≤ now) :
    ((isAllowed rl ip now).2.1 = false →
      ∀ j, ((isAllowed rl ip now).1.requestsByIp j).Sublist (rl.requestsByIp j)) ∧
    ((isAllowed rl ip now).2.1 = true →
      ∀ t ∈ (isAllowed rl ip now).1.requestsByIp ip, now - 3600 < t ∧ t ≤ now) := by
  have hsub := afterCleanup_sublist rl now ip
  have hsorted1 : List.Sorted (· ≤ ·) ((afterCleanup rl now).requestsByIp ip) :=
    List.Pairwise.sublist hsub hsorted
  have hle1 : ∀ t ∈ (afterCleanup rl now).requestsByIp ip, t ≤ now :=
    fun t ht => hle t (hsub.subset ht)
  rcases isAllowed_cases rl ip now with ⟨hres, hstate⟩ | ⟨hres, hstate⟩
  · constructor
    · intro _ j
      rw [hstate]
      exact afterCleanup_sublist rl now j
    · intro htrue
      rw [hres] at htrue
      exact absurd htrue (by simp)
  · constructor
    · intro hfalse
      rw [hres] at hfalse
      exact absurd hfalse (by simp)
    · intro _ t htp
      rw [hstate] at htp
      have ht : t ∈ dropOld (now - 3600) ((afterCleanup rl now).requestsByIp ip ++ [now]) := by
        simpa using htp
      have hsorted2 :
          List.Sorted (· ≤ ·) ((afterCleanup rl now).requestsByIp ip ++ [now]) := by
        refine List.pairwise_append.mpr ⟨hsorted1, List.sorted_singleton _, ?_⟩
        intro a ha b hb
        rw [List.mem_singleton] at hb
        subst hb
        exact hle1 a ha
      refine ⟨mem_dropOld_gt _ _ hsorted2 t ht, ?_⟩
      have hmem := (dropOld_sublist _ _).subset ht
      rcases List.mem_append.mp hmem with hmem1 | hmem1
      · exact hle1 t hmem1
      · rw [List.mem_singleton] at hmem1
        subst hmem1
        exact le_refl _

/-- C9 witness: the allowed branch of the theorem at a concrete limiter. -/
theorem c9_history_recording_witness :
    (isAllowed c9State "a" 100).2.1 = true ∧
    ∀ t ∈ (isAllowed c9State "a" 100).1.requestsByIp "a",
      (100 : ℚ) - 3600 < t ∧ t ≤ 100 := by
  have hallowed : (isAllowed c9State "a" 100).2.1 = true := by
    norm_num [isAllowed, c9State, afterCleanup, cleanupOldEntries, windowCount,
      dropOld, List.countP_cons]
  exact ⟨hallowed,
    (c9_history_recording c9State "a" 100 (by norm_num [c9State])
      (by norm_num [c9State])).2 hallowed⟩

/-- C4: once at least `max_attempts` failed attempts from an IP lie inside
the trailing lockout window, `validate_request` rejects every call from
that IP with `TOO_MANY_FAILED_ATTEMPTS` — for arbitrary supplied key and
signature headers, hence in particular for the correct ones. -/
theorem c4_lockout (hmacHex : String → String → String) (v : APIKeyValidator)
    (providedKey providedSig : Option String) (body ip : String) (now : ℚ)
    (h : v.maxAttempts ≤ (recentAttempts v ip now).length) :
    (validateRequest hmacHex v providedKey providedSig body ip now).2.1 = false ∧
    ((validateRequest hmacHex v providedKey providedSig body ip now).2.2).map
      AuthError.code = some "TOO_MANY_FAILED_ATTEMPTS" := by
  have hlock : (isIpLockedOut v ip now).2 = true := decide_eq_true h
  constructor
  · simp only [validateRequest, hlock, if_true]
  · simp only [validateRequest, hlock, if_true]
    rfl

/-- C4 witness: the default five failed attempts are on record for the IP;
the caller now supplies the CORRECT configured key and is still rejected. -/
theorem c4_lockout_witness :
    (validateRequest (fun _ _ => "") c4State (some "secret-key") none ""
      "10.0.0.9" 100).2.1 = false ∧
    ((validateRequest (fun _ _ => "") c4State (some "secret-key") none ""
      "10.0.0.9" 100).2.2).map AuthError.code = some "TOO_MANY_FAILED_ATTEMPTS" :=
  c4_lockout (fun _ _ => "") c4State (some "secret-key") none "" "10.0.0.9" 100
    (by norm_num [recentAttempts, c4State, List.filter_cons])

theorem validateSegments_missing (i : Nat) (l : List Segment)
    (h : ∃ seg ∈ l, falsyId seg.speakerId = true) :
    (validateSegments i l).1 = false := by
  induction l generalizing i with
  | nil => simp at h
  | cons seg rest ih =>
    rcases h with ⟨s, hs, hfalsy⟩
    by_cases hf : falsyId seg.speakerId = true
    · simp [validateSegments, hf]
    · have hsrest : s ∈ rest := by
        rcases List.mem_cons.mp hs with rfl | hmem
        · exact absurd hfalsy hf
        · exact hmem
      simp only [validateSegments]
      rw [if_neg hf]
      cases hval : (validateScriptText (seg.text.getD "")).1 with
      | false => simp [hval]
      | true =>
        simp only [hval, Bool.not_true, Bool.false_eq_true, if_false]
        exact ih (i + 1) ⟨s, hsrest, hfalsy⟩

/-- C8: the validators decide the spec's examples as stated —
`"<script>alert(1)</script>"` is rejected, `"Alice-123"` accepted, the
language `"xx"` rejected, and any synthesis script with a segment whose
`speaker_id` is missing (or empty, which Python's `if not speaker_id` also
treats as absent) is rejected outright. -/
theorem c8_input_validators :
    (validateSpeakerName "<script>alert(1)</script>").1 = false ∧
    (validateSpeakerName "Alice-123").1 = true ∧
    (validateLanguageCode "xx").1 = false ∧
    ∀ script : List Segment, (∃ seg ∈ script, falsyId seg.speakerId = true) →
      (validateSynthesisScript script).1 = false := by
  refine ⟨by decide, by decide, by decide, ?_⟩
  intro script h
  unfold validateSynthesisScript
  by_cases h0 : script.isEmpty
  · rw [if_pos h0]
  · rw [if_neg h0]
    by_cases h1 : script.length > 1000
    · rw [if_pos h1]
    · rw [if_neg h1]
      exact validateSegments_missing 0 script h

/-- C8 witness: a one-segment script with no `speaker_id` is rejected. -/
theorem c8_input_validators_witness :
    (validateSynthesisScript [⟨none, some "hello"⟩]).1 = false :=
  c8_input_validators.2.2.2 [⟨none, some "hello"⟩]
    ⟨⟨none, some "hello"⟩, by decide, rfl⟩

/-- C5 (counterexample): a JSON `/v1/speakers` request with `duration = 10`
and default (empty) script gets 400 `INVALID_INPUT`, not 422; and a request
with valid fields and `duration = 10` gets 422 with the literal code
`"INSUFFICIENT_REF"` — not the `ErrorCode.INSUFFICIENT_REF` wire value
`"INSUFFICIENT_REFERENCE_AUDIO"` the claim names. -/
theorem c5_counterexample :
    vrJsonSpeakersResponse "unknown" "en" "" 10 = .err 400 "INVALID_INPUT" ∧
    vrJsonSpeakersResponse "unknown" "en" "hello" 10 = .err 422 "INSUFFICIENT_REF" ∧
    pgJsonSpeakersResponse "unknown" "en" "hello" 10 = .err 422 "INSUFFICIENT_REF" ∧
    "INSUFFICIENT_REF" ≠ errorCodeInsufficientRef := by
  refine ⟨by decide, by decide, by decide, by decide⟩

/-- C5 (amended): a JSON `/v1/speakers` request whose name, language and
script pass validation and whose duration is below 30 is answered 422 with
code `"INSUFFICIENT_REF"`, by both servers. -/
theorem c5_insufficient_duration (name lang script : String) (duration : ℚ)
    (hn : (validateSpeakerName name).1 = true)
    (hl : (validateLanguageCode lang).1 = true)
    (hs : (validateScriptText script).1 = true)
    (hd : duration < 30) :
    vrJsonSpeakersResponse name lang script duration = .err 422 "INSUFFICIENT_REF" ∧
    pgJsonSpeakersResponse name lang script duration = .err 422 "INSUFFICIENT_REF" := by
  constructor
  · simp [vrJsonSpeakersResponse, hn, hl, hs, hd]
  · simp [pgJsonSpeakersResponse, hn, hl, hs, hd]

/-- C5 witness: the amended theorem at a concrete valid request. -/
theorem c5_insufficient_duration_witness :
    vrJsonSpeakersResponse "Alice-123" "en" "hello" 10 = .err 422 "INSUFFICIENT_REF" ∧
    pgJsonSpeakersResponse "Alice-123" "en" "hello" 10 = .err 422 "INSUFFICIENT_REF" :=
  c5_insufficient_duration "Alice-123" "en" "hello" 10
    (by decide) (by decide) (by decide) (by decide)

/-- C6 (counterexample): with two speakers inserted at times 1 then 2, the
embedded server's listing (no `ORDER BY`) returns them in insertion order,
which is not newest-first. -/
theorem c6_counterexample :
    sqliteListSpeakers [⟨1, "alice", "en", 1⟩, ⟨2, "bob", "en", 2⟩] 10 0 =
      [⟨1, "alice", "en", 1⟩, ⟨2, "bob", "en", 2⟩] ∧
    ¬ List.Sorted newerEq [⟨1, "alice", "en", 1⟩, ⟨2, "bob", "en", 2⟩] := by
  constructor
  · rfl
  · intro hsort
    have h := (List.sorted_cons.mp hsort).1 ⟨2, "bob", "en", 2⟩ (by simp)
    norm_num [newerEq] at h

/-- C6 (amended): the PostgreSQL backend lists speakers newest first
(`created_at DESC`), while the embedded backend returns a contiguous slice
of the table in insertion (rowid) order, unsorted. -/
theorem c6_list_speakers_order (table : List SpeakerRow)
    (limit offset pageSize off : Nat) :
    List.Sorted newerEq (pgListSpeakers table limit offset) ∧
    (sqliteListSpeakers table pageSize off).Sublist table := by
  constructor
  · have hs := List.sorted_insertionSort newerEq table
    have hsub : (((table.insertionSort newerEq).drop offset).take limit).Sublist
        (table.insertionSort newerEq) :=
      (List.take_sublist _ _).trans (List.drop_sublist _ _)
    exact List.Pairwise.sublist hsub hs
  · exact (List.take_sublist _ _).trans (List.drop_sublist _ _)

theorem updateJob_noop (row : JobRow) (now : ℚ) :
    updateJob row none none none none none now = row := rfl

theorem updateJob_typ (row : JobRow) (s? a? c? f? : Option String)
    (m? : Option (List (String × String))) (now : ℚ) :
    (updateJob row s? a? c? f? m? now).typ = row.typ := by
  cases s? <;> cases a? <;> cases c? <;> cases f? <;> cases m? <;>
    simp [updateJob, buildUpdates, applyUpdate] <;>
    split_ifs <;> simp [applyUpdate]

theorem updateJob_createdAt (row : JobRow) (s? a? c? f? : Option String)
    (m? : Option (List (String × String))) (now : ℚ) :
    (updateJob row s? a? c? f? m? now).createdAt = row.createdAt := by
  cases s? <;> cases a? <;> cases c? <;> cases f? <;> cases m? <;>
    simp [updateJob, buildUpdates, applyUpdate] <;>
    split_ifs <;> simp [applyUpdate]

theorem updateJob_status_some (row : JobRow) (s : String) (a? c? f? : Option String)
    (m? : Option (List (String × String))) (now : ℚ) :
    (updateJob row (some s) a? c? f? m? now).status = s := by
  by_cases hs : s = "succeeded" <;>
    cases a? <;> cases c? <;> cases f? <;> cases m? <;>
    simp [updateJob, buildUpdates, applyUpdate, hs]

theorem updateJob_status_none (row : JobRow) (a? c? f? : Option String)
    (m? : Option (List (String × String))) (now : ℚ) :
    (updateJob row none a? c? f? m? now).status = row.status := by
  cases a? <;> cases c? <;> cases f? <;> cases m? <;>
    simp [updateJob, buildUpdates, applyUpdate]

theorem updateJob_audioUrl_some (row : JobRow) (u : String) (s? c? f? : Option String)
    (m? : Option (List (String × String))) (now : ℚ) :
    (updateJob row s? (some u) c? f? m? now).audioUrl = some u := by
  cases s? <;> cases c? <;> cases f? <;> cases m? <;>
    simp [updateJob, buildUpdates, applyUpdate]

theorem updateJob_audioUrl_none (row : JobRow) (s? c? f? : Option String)
    (m? : Option (List (String × String))) (now : ℚ) :
    (updateJob row s? none c? f? m? now).audioUrl = row.audioUrl := by
  cases s? <;> cases c? <;> cases f? <;> cases m? <;>
    simp [updateJob, buildUpdates, applyUpdate] <;>
    split_ifs <;> simp [applyUpdate]

theorem updateJob_captionPath_some (row : JobRow) (p : String) (s? a? f? : Option String)
    (m? : Option (List (String × String))) (now : ℚ) :
    (updateJob row s? a? (some p) f? m? now).captionPath = some p := by
  cases s? <;> cases a? <;> cases f? <;> cases m? <;>
    simp [updateJob, buildUpdates, applyUpdate]

theorem updateJob_captionPath_none (row : JobRow) (s? a? f? : Option String)
    (m? : Option (List (String × String))) (now : ℚ) :
    (updateJob row s? a? none f? m? now).captionPath = row.captionPath := by
  cases s? <;> cases a? <;> cases f? <;> cases m? <;>
    simp [updateJob, buildUpdates, applyUpdate] <;>
    split_ifs <;> simp [applyUpdate]

theorem updateJob_captionFormat_some (row : JobRow) (f : String) (s? a? c? : Option String)
    (m? : Option (List (String × String))) (now : ℚ) :
    (updateJob row s? a? c? (some f) m? now).captionFormat = some f := by
  cases s? <;> cases a? <;> cases c? <;> cases m? <;>
    simp [updateJob, buildUpdates, applyUpdate]

theorem updateJob_captionFormat_none (row : JobRow) (s? a? c? : Option String)
    (m? : Option (List (String × String))) (now : ℚ) :
    (updateJob row s? a? c? none m? now).captionFormat = row.captionFormat := by
  cases s? <;> cases a? <;> cases c? <;> cases m? <;>
    simp [updateJob, buildUpdates, applyUpdate] <;>
    split_ifs <;> simp [applyUpdate]

theorem updateJob_metadata_some (row : JobRow) (m : List (String × String))
    (s? a? c? f? : Option String) (now : ℚ) :
    (updateJob row s? a? c? f? (some m) now).metadata = mergeMeta row.metadata m := by
  cases s? <;> cases a? <;> cases c? <;> cases f? <;>
    simp [updateJob, buildUpdates, applyUpdate] <;>
    split_ifs <;> simp [applyUpdate]

theorem updateJob_metadata_none (row : JobRow) (s? a? c? f? : Option String) (now : ℚ) :
    (updateJob row s? a? c? f? none now).metadata = row.metadata := by
  cases s? <;> cases a? <;> cases c? <;> cases f? <;>
    simp [updateJob, buildUpdates, applyUpdate] <;>
    split_ifs <;> simp [applyUpdate]

theorem updateJob_completedAt (row : JobRow) (s? a? c? f? : Option String)
    (m? : Option (List (String × String))) (now : ℚ) :
    (updateJob row s? a? c? f? m? now).completedAt =
      if s? = some "succeeded" then some now else row.completedAt := by
  cases s? with
  | none =>
    cases a? <;> cases c? <;> cases f? <;> cases m? <;>
      simp [updateJob, buildUpdates, applyUpdate]
  | some s =>
    by_cases hs : s = "succeeded" <;>
      cases a? <;> cases c? <;> cases f? <;> cases m? <;>
      simp [updateJob, buildUpdates, applyUpdate, hs]

/-- C7: `update_job` updates exactly the provided fields; `type` and
`created_at` are never touched, unprovided columns keep their values,
`completed_at` is stamped with `NOW()` exactly when the provided status is
`"succeeded"`, and a call providing no fields leaves the row unchanged
(the `if not updates: return` path, which skips the `UPDATE` and hence
also the `updated_at` trigger). -/
theorem c7_update_job_frame (row : JobRow) (s? a? c? f? : Option String)
    (m? : Option (List (String × String))) (now : ℚ) :
    updateJob row none none none none none now = row ∧
    (updateJob row s? a? c? f? m? now).typ = row.typ ∧
    (updateJob row s? a? c? f? m? now).createdAt = row.createdAt ∧
    (updateJob row s? a? c? f? m? now).status = s?.getD row.status ∧
    (updateJob row s? a? c? f? m? now).audioUrl =
      (match a? with | some u => some u | none => row.audioUrl) ∧
    (updateJob row s? a? c? f? m? now).captionPath =
      (match c? with | some p => some p | none => row.captionPath) ∧
    (updateJob row s? a? c? f? m? now).captionFormat =
      (match f? with | some f => some f | none => row.captionFormat) ∧
    (updateJob row s? a? c? f? m? now).metadata =
      (match m? with | some m => mergeMeta row.metadata m | none => row.metadata) ∧
    (updateJob row s? a? c? f? m? now).completedAt =
      (if s? = some "succeeded" then some now else row.completedAt) := by
  refine ⟨updateJob_noop row now, updateJob_typ row s? a? c? f? m? now,
    updateJob_createdAt row s? a? c? f? m? now, ?_, ?_, ?_, ?_, ?_,
    updateJob_completedAt row s? a? c? f? m? now⟩
  · cases s? with
    | none => exact updateJob_status_none row a? c? f? m? now
    | some s => exact updateJob_status_some row s a? c? f? m? now
  · cases a? with
    | none => exact updateJob_audioUrl_none row s? c? f? m? now
    | some u => exact updateJob_audioUrl_some row u s? c? f? m? now
  · cases c? with
    | none => exact updateJob_captionPath_none row s? a? f? m? now
    | some p => exact updateJob_captionPath_some row p s? a? f? m? now
  · cases f? with
    | none => exact updateJob_captionFormat_none row s? a? c? m? now
    | some f => exact updateJob_captionFormat_some row f s? a? c? m? now
  · cases m? with
    | none => exact updateJob_metadata_none row s? a? c? f? now
    | some m => exact updateJob_metadata_some row m s? a? c? f? now

/-! Evaluations of the demo job rows, via the `updateJob` field lemmas. -/

theorem demoProcessing_status : demoProcessing.status = "processing" :=
  updateJob_status_some demoCreated "processing" none none none none 1

theorem demoSucceeded_status : demoSucceeded.status = "succeeded" :=
  updateJob_status_some demoProcessing "succeeded" (some "s3://b/a.wav")
    (some "s3://b/c.json") (some "json") (some []) 2

theorem demoFailed_status : demoFailed.status = "failed" :=
  updateJob_status_some demoSucceeded "failed" none none none
    (some [("error", "NameError")]) 3

theorem demoProcessing_audioUrl : demoProcessing.audioUrl = none :=
  (updateJob_audioUrl_none demoCreated (some "processing") none none none 1).trans rfl

theorem demoSucceeded_audioUrl : demoSucceeded.audioUrl = some "s3://b/a.wav" :=
  updateJob_audioUrl_some demoProcessing "s3://b/a.wav" (some "succeeded")
    (some "s3://b/c.json") (some "json") (some []) 2

theorem demoFailed_audioUrl : demoFailed.audioUrl = some "s3://b/a.wav" :=
  (updateJob_audioUrl_none demoSucceeded (some "failed") none none
    (some [("error", "NameError")]) 3).trans demoSucceeded_audioUrl

theorem demoFailed_reachable : JobReachable demoFailed := by
  have h1 : JobReachable demoCreated := .created "synthesize" [] 0
  have h2 : JobReachable demoProcessing :=
    .step _ _ h1 (.taskStart demoCreated 1 (Or.inl rfl))
  have h3 : JobReachable demoSucceeded :=
    .step _ _ h2 (.taskSucceedSynthesize demoProcessing "s3://b/a.wav"
      "s3://b/c.json" "json" [] 2 demoProcessing_status)
  exact .step _ _ h3 (.taskFail demoSucceeded [("error", "NameError")] 3
    (Or.inr demoSucceeded_status))

/-- C1 (counterexample): two violations of "references non-null only when
status = succeeded".  The legacy in-memory server's `/v1/synthesize`
handler inserts the job row with status `"pending"` and BOTH output
references already set; and in the PostgreSQL backend a post-success task
failure (the failure handler firing after the success update committed,
e.g. `tasks.py` `synthesize`'s deterministic `NameError` after its
line-264 commit) yields a reachable row with status `"failed"` and its
references still set. -/
theorem c1_counterexample :
    (legacySynthesizeInsert "job-1" "/tmp/job-1.wav" "/tmp/job-1.json" "json").status
      = "pending" ∧
    (legacySynthesizeInsert "job-1" "/tmp/job-1.wav" "/tmp/job-1.json" "json").audioUrl
      ≠ none ∧
    (legacySynthesizeInsert "job-1" "/tmp/job-1.wav" "/tmp/job-1.json" "json").captionPath
      ≠ none ∧
    JobReachable demoFailed ∧
    demoFailed.status = "failed" ∧
    demoFailed.audioUrl ≠ none := by
  refine ⟨rfl, by simp [legacySynthesizeInsert], by simp [legacySynthesizeInsert],
    demoFailed_reachable, demoFailed_status, ?_⟩
  rw [demoFailed_audioUrl]
  simp

/-- C1 (amended): in the PostgreSQL backend, a reachable job row that is
still `"pending"` carries no audio or caption reference, and a status
update changes a reference only when it simultaneously sets the status to
`"succeeded"` (the worker-loop and task synthesize success updates).  Once
set, the references persist through the post-success failure handler and
the retry re-execution, so `"failed"` and re-`"processing"` rows may still
carry them — that, and the legacy in-memory `/v1/synthesize` insert, are
what `c1_counterexample` exhibits. -/
theorem c1_refs_set_only_on_success :
    (∀ r : JobRow, JobReachable r → r.status = "pending" →
      r.audioUrl = none ∧ r.captionPath = none) ∧
    (∀ r r' : JobRow, JobStep r r' →
      (r'.audioUrl ≠ r.audioUrl ∨ r'.captionPath ≠ r.captionPath) →
      r'.status = "succeeded") := by
  constructor
  · intro r hreach
    induction hreach with
    | created typ meta now =>
      intro _
      exact ⟨rfl, rfl⟩
    | step r r' hr hstep ih =>
      intro hpend
      exfalso
      cases hstep with
      | workerRegister now hst =>
        rw [updateJob_status_some] at hpend
        exact absurd hpend (by decide)
      | workerSynthesize a c f now hst =>
        rw [updateJob_status_some] at hpend
        exact absurd hpend (by decide)
      | taskStart now hst =>
        rw [updateJob_status_some] at hpend
        exact absurd hpend (by decide)
      | taskSucceedRegister m now hst =>
        rw [updateJob_status_some] at hpend
        exact absurd hpend (by decide)
      | taskSucceedSynthesize a c f m now hst =>
        rw [updateJob_status_some] at hpend
        exact absurd hpend (by decide)
      | taskFail m now hst =>
        rw [updateJob_status_some] at hpend
        exact absurd hpend (by decide)
  · intro r r' hstep
    cases hstep with
    | workerRegister now hst =>
      intro _
      exact updateJob_status_some r "succeeded" none none none none now
    | workerSynthesize a c f now hst =>
      intro _
      exact updateJob_status_some r "succeeded" (some a) (some c) (some f) none now
    | taskStart now hst =>
      intro hor
      exfalso
      rcases hor with h1 | h1
      · exact h1 (updateJob_audioUrl_none r (some "processing") none none none now)
      · exact h1 (updateJob_captionPath_none r (some "processing") none none none now)
    | taskSucceedRegister m now hst =>
      intro _
      exact updateJob_status_some r "succeeded" none none none (some m) now
    | taskSucceedSynthesize a c f m now hst =>
      intro _
      exact updateJob_status_some r "succeeded" (some a) (some c) (some f) (some m) now
    | taskFail m now hst =>
      intro hor
      exfalso
      rcases hor with h1 | h1
      · exact h1 (updateJob_audioUrl_none r (some "failed") none none (some m) now)
      · exact h1 (updateJob_captionPath_none r (some "failed") none none (some m) now)

/-- C1 witness: the freshly created pending job has no references, and the
synthesize success update — which does change the audio reference — indeed
carries status `"succeeded"`. -/
theorem c1_refs_witness :
    (demoCreated.audioUrl = none ∧ demoCreated.captionPath = none) ∧
    demoSucceeded.status = "succeeded" := by
  constructor
  · exact c1_refs_set_only_on_success.1 demoCreated (.created "synthesize" [] 0) rfl
  · refine c1_refs_set_only_on_success.2 demoProcessing demoSucceeded
      (.taskSucceedSynthesize demoProcessing "s3://b/a.wav" "s3://b/c.json"
        "json" [] 2 demoProcessing_status) (Or.inl ?_)
    rw [demoSucceeded_audioUrl, demoProcessing_audioUrl]
    simp

/-- C2 (counterexample): two refutations of "strictly forward, passing
through pending→processing→terminal".  The legacy worker loop's single
`UPDATE` takes a pending job directly to `"succeeded"` (never
`"processing"`); and the task failure handler performs a reachable
succeeded→failed update after the success commit (the deterministic
`NameError` path of `tasks.py` `synthesize`), which is not forward. -/
theorem c2_counterexample :
    (legacyRegisterInsert "job-1").status = "pending" ∧
    (legacyWorkerUpdate (legacyRegisterInsert "job-1")).status = "succeeded" ∧
    "succeeded" ≠ "processing" ∧
    JobStep demoSucceeded demoFailed ∧
    demoSucceeded.status = "succeeded" ∧
    demoFailed.status = "failed" :=
  ⟨rfl, rfl, by decide,
    .taskFail demoSucceeded [("error", "NameError")] 3 (Or.inr demoSucceeded_status),
    demoSucceeded_status, demoFailed_status⟩

/-- C2 (amended): every modelled status update either moves the status
strictly forward in the rank order pending (0) < processing (1) <
terminal (2) — the in-memory worker loops jump pending→succeeded without
an intervening `processing` — or is one of the two failure-path
exceptions: the Celery retry re-execution (failed→processing, backward)
and the failure handler firing after the success update already committed
(succeeded→failed). -/
theorem c2_status_forward :
    (∀ r r' : JobRow, JobStep r r' →
      (r.status = "failed" ∧ r'.status = "processing") ∨
      (r.status = "succeeded" ∧ r'.status = "failed") ∨
        statusRank r.status < statusRank r'.status) ∧
    (∀ r : SqliteJobRow, r.status = "pending" →
      statusRank r.status < statusRank (legacyWorkerUpdate r).status) := by
  constructor
  · intro r r' hstep
    cases hstep with
    | workerRegister now hst =>
      right; right
      rw [updateJob_status_some, hst]
      decide
    | workerSynthesize a c f now hst =>
      right; right
      rw [updateJob_status_some, hst]
      decide
    | taskStart now hst =>
      rcases hst with h2 | h2
      · right; right
        rw [updateJob_status_some, h2]
        decide
      · left
        exact ⟨h2, updateJob_status_some r "processing" none none none none now⟩
    | taskSucceedRegister m now hst =>
      right; right
      rw [updateJob_status_some, hst]
      decide
    | taskSucceedSynthesize a c f m now hst =>
      right; right
      rw [updateJob_status_some, hst]
      decide
    | taskFail m now hst =>
      rcases hst with h2 | h2
      · right; right
        rw [updateJob_status_some, h2]
        decide
      · right; left
        exact ⟨h2, updateJob_status_some r "failed" none none none (some m) now⟩
  · intro r h
    rw [show (legacyWorkerUpdate r).status = "succeeded" from rfl, h]
    decide

/-- C2 witness: the legacy worker's pending→succeeded update is strictly
forward. -/
theorem c2_status_forward_witness :
    statusRank (legacyRegisterInsert "job-1").status <
      statusRank (legacyWorkerUpdate (legacyRegisterInsert "job-1")).status :=
  c2_status_forward.2 (legacyRegisterInsert "job-1") rfl

/-- C10: a POST whose `Content-Length` exceeds 30 MiB is answered 413
`PAYLOAD_TOO_LARGE` by both servers with the security-middleware state
returned UNCHANGED: the request is never rate-limited nor authenticated. -/
theorem c10_payload_gate (hmacHex : String → String → String)
    (mw : MiddlewareState) (contentLength : Nat) (ip : String)
    (key sig : Option String) (body : String) (now : ℚ)
    (h : contentLength > 30 * 1024 * 1024) :
    vrDoPostGate hmacHex mw contentLength ip key sig body now =
      (mw, .earlyError 413 "PAYLOAD_TOO_LARGE") ∧
    pgDoPostGate hmacHex mw contentLength ip key sig body now =
      (mw, .earlyError 413 "PAYLOAD_TOO_LARGE") := by
  constructor
  · simp [vrDoPostGate, h]
  · simp [pgDoPostGate, h]

/-- C10 witness: one byte above the 30 MiB limit trips the gate. -/
theorem c10_payload_gate_witness :
    vrDoPostGate (fun _ _ => "") c10State 31457281 "10.0.0.1" none none "" 0 =
      (c10State, .earlyError 413 "PAYLOAD_TOO_LARGE") ∧
    pgDoPostGate (fun _ _ => "") c10State 31457281 "10.0.0.1" none none "" 0 =
      (c10State, .earlyError 413 "PAYLOAD_TOO_LARGE") :=
  c10_payload_gate (fun _ _ => "") c10State 31457281 "10.0.0.1" none none "" 0
    (by decide)
